import Mathlib

/-!
Shallow embedding of `pklaus/audio/spectrum/plot.py`: a live microphone
FFT display.  The embedding covers the components the verified claims
need: the `DecibelSlider` (linear integer position ↔ decibel ↔ power
ratio conversions), the `MicrophoneRecorder` (lock-protected chunk
buffer with drain-and-clear, plus thread start/close semantics), the
per-tick pipeline `handleNewData` (drain, keep last chunk, `rfft`,
cutoff zeroing, gain resolution, magnitude display), and the
precomputed frequency/time axes from `initData`.

Numeric model: Python floats are modelled by exact reals (`ℝ`), numpy
complex values by `ℂ`.  The one place where IEEE non-finite values
matter — auto-gain division by a zero maximum magnitude — is modelled
explicitly with `Option ℝ` (`none` stands for the non-finite result
`+inf`, and a display frame contaminated by `0 * inf = NaN` is
`none : Option (List ℝ)`).  Machine integers of the slider fit easily
in `ℤ`.
-/

namespace Plot

/-- `sample_style = (None, np.float32, 1.0, -24, 24)`: entry 2 is the fixed
display ceiling used by auto gain (`sample_style[2] = 1.0`). -/
def sampleStyleCeiling : ℝ := 1

/-- `sample_style[3] = -24`: the low dB bound handed to the gain slider. -/
def sampleStyleLowDb : ℝ := -24

/-- `sample_style[4] = 24`: the high dB bound handed to the gain slider. -/
def sampleStyleHighDb : ℝ := 24

/-- Python's built-in `round`: round half to even (banker's rounding),
as used by `DecibelSlider.set_decibel`. -/
def pyRound {α : Type} [LinearOrderedField α] [FloorRing α] (q : α) : ℤ :=
  if q - ⌊q⌋ < 1 / 2 then ⌊q⌋
  else if 1 / 2 < q - ⌊q⌋ then ⌊q⌋ + 1
  else if 2 ∣ ⌊q⌋ then ⌊q⌋ else ⌊q⌋ + 1

/-- The `DecibelSlider(QtWidgets.QSlider)` state: the dB bounds given at
construction and the current linear integer position (`self.value()`).
The arithmetic is stated over any linear ordered field with a floor so
the round-trip facts can be checked exactly over `ℚ`; the widget itself
instantiates it at `ℝ`. -/
structure DecibelSlider (α : Type) where
  low_db : α
  high_db : α
  value : ℤ

namespace DecibelSlider

/-- `INT_MIN = 0`. -/
def INT_MIN : ℤ := 0

/-- `INT_MAX = 1000000`. -/
def INT_MAX : ℤ := 1000000

variable {α : Type} [LinearOrderedField α] [FloorRing α]

/-- `db_to_int`: `(db - low_db) * (INT_MAX - INT_MIN) / (high_db - low_db)`. -/
def db_to_int (s : DecibelSlider α) (db : α) : α :=
  (db - s.low_db) * ((INT_MAX : α) - (INT_MIN : α)) / (s.high_db - s.low_db)

/-- `int_to_db`: `(val - INT_MIN) * (high_db - low_db) / (INT_MAX - INT_MIN) + low_db`. -/
def int_to_db (s : DecibelSlider α) (val : ℤ) : α :=
  ((val : α) - (INT_MIN : α)) * (s.high_db - s.low_db) / ((INT_MAX : α) - (INT_MIN : α)) + s.low_db

/-- `set_decibel`: clamp `db_to_int(db)` to `[INT_MIN, INT_MAX]`, round,
store as the new slider position (`QSlider.setValue`). -/
def set_decibel (s : DecibelSlider α) (db : α) : DecibelSlider α :=
  { s with value := pyRound (min (INT_MAX : α) (max (INT_MIN : α) (s.db_to_int db))) }

/-- `decibel`: `int_to_db(self.value())`. -/
def decibel (s : DecibelSlider α) : α :=
  s.int_to_db s.value

/-- `db_to_power_ratio`: `10**(db/10)`. -/
noncomputable def db_to_power_ratio (db : ℝ) : ℝ :=
  (10 : ℝ) ^ (db / 10)

/-- `db_to_amplitude_ratio`: `10**(db/20)`. -/
noncomputable def db_to_amplitude_ratio (db : ℝ) : ℝ :=
  (10 : ℝ) ^ (db / 20)

/-- `power_ratio`: `db_to_power_ratio(decibel())`. -/
noncomputable def power_ratio (s : DecibelSlider ℝ) : ℝ :=
  db_to_power_ratio s.decibel

/-- `amplitude_ratio`: `db_to_amplitude_ratio(decibel())`. -/
noncomputable def amplitude_ratio (s : DecibelSlider ℝ) : ℝ :=
  db_to_amplitude_ratio s.decibel

/-- `set_power_ratio(pr)`: `db = 10 * math.log10(pr); set_decibel(db)`. -/
noncomputable def set_power_ratio (s : DecibelSlider ℝ) (pr : ℝ) : DecibelSlider ℝ :=
  s.set_decibel (10 * Real.logb 10 pr)

/-- `set_amplitude_ratio(ar)`: `db = 20 * math.log10(ar); set_decibel(db)`. -/
noncomputable def set_amplitude_ratio (s : DecibelSlider ℝ) (ar : ℝ) : DecibelSlider ℝ :=
  s.set_decibel (20 * Real.logb 10 ar)

end DecibelSlider

/-- One audio chunk: a flat sequence of float samples (the reshaped
`rec.record(numframes=chunksize)` block). -/
abbrev Chunk := List ℝ

/-- `MicrophoneRecorder` state.  `frames` is the lock-protected list of
captured chunks; `threadStarted` records whether `self.t.start()` has run
(the `threading.Thread` object itself is external, only its
started/not-started state is observable through `start`/`close`). -/
structure MicrophoneRecorder where
  rate : ℕ
  chunksize : ℕ
  stop : Bool
  frames : List Chunk
  threadStarted : Bool

namespace MicrophoneRecorder

/-- `__init__(rate, chunksize)`: `stop = False`, `frames = []`, and a
`threading.Thread` object that has not been started.  The soundcard
handle and the `atexit` registration are external effects with no
observable state here. -/
def init (rate chunksize : ℕ) : MicrophoneRecorder :=
  { rate := rate, chunksize := chunksize, stop := false, frames := [], threadStarted := false }

/-- One producer iteration of `capture_frames`: under the lock,
`self.frames.append(data)`. -/
def capture_append (m : MicrophoneRecorder) (data : Chunk) : MicrophoneRecorder :=
  { m with frames := m.frames ++ [data] }

/-- `get_frames`: under the lock, return the accumulated frames and reset
the internal list to `[]` (`frames = self.frames; self.frames = []`). -/
def get_frames (m : MicrophoneRecorder) : List Chunk × MicrophoneRecorder :=
  (m.frames, { m with frames := [] })

/-- `start`: `self.t.start()`. -/
def start (m : MicrophoneRecorder) : MicrophoneRecorder :=
  { m with threadStarted := true }

/-- `close`: `self.stop = True; self.t.join()`.  CPython's
`Thread.join` raises `RuntimeError("cannot join thread before it is
started")` when the thread was never started, so `close` on an
unstarted recorder is an error, not a no-op. -/
def close (m : MicrophoneRecorder) : Except String MicrophoneRecorder :=
  let m1 : MicrophoneRecorder := { m with stop := true }
  if m1.threadStarted then Except.ok m1
  else Except.error "cannot join thread before it is started"

end MicrophoneRecorder

/-- `np.fft.rfft(x)`: the real-input DFT, bins `k = 0 .. len(x)/2`, bin
`k` being `∑ j, x[j] * exp(-2·π·i·j·k / len(x))`. -/
noncomputable def rfft (x : List ℝ) : List ℂ :=
  (List.range (x.length / 2 + 1)).map fun k : ℕ =>
    ∑ j ∈ Finset.range x.length,
      (x.getD j 0 : ℂ) * Complex.exp (-2 * Real.pi * Complex.I * (j : ℂ) * (k : ℂ) / (x.length : ℂ))

/-- `fft_frame[0:k] = 0.0`: zero the complex bins with index `< k`,
leave every other bin unchanged. -/
def cutoffZero (k : ℕ) (l : List ℂ) : List ℂ :=
  l.mapIdx fun i z => if i < k then 0 else z

/-- `np.max` over a list of magnitudes (all entries are `≥ 0`, so the
seed `0` of the fold is inert for the nonempty arrays numpy sees). -/
def listMax (l : List ℝ) : ℝ :=
  l.foldr max 0

/-- `np.abs(fft_frame).max()`. -/
noncomputable def absMax (l : List ℂ) : ℝ :=
  listMax (l.map Complex.abs)

/-- numpy's float reciprocal `1/x` on a nonnegative `x`: `1/0` is `+inf`
(a warning, not an exception).  A nonnegative, possibly infinite float is
modelled as `Option ℝ` with `none` standing for `+inf`. -/
noncomputable def floatInv (x : ℝ) : Option ℝ :=
  if x = 0 then none else some x⁻¹

/-- Line 309: `gain = 1/np.abs(fft_frame).max()*sample_style[2]`. -/
noncomputable def autoGainValue (spec : List ℂ) : Option ℝ :=
  (floatInv (absMax spec)).map fun y => y * sampleStyleCeiling

namespace DecibelSlider

/-- `set_power_ratio` applied to a possibly infinite gain.  On `+inf` the
chain in the source is `math.log10(inf) = inf`, `db_to_int(inf) = inf`,
`min(INT_MAX, max(INT_MIN, inf)) = INT_MAX`, `round(INT_MAX) = INT_MAX`:
the position is forced to `INT_MAX`. -/
noncomputable def set_power_ratio_float (s : DecibelSlider ℝ) (g : Option ℝ) : DecibelSlider ℝ :=
  match g with
  | none => { s with value := INT_MAX }
  | some pr => s.set_power_ratio pr

end DecibelSlider

/-- `fft_frame *= gain` followed by `np.abs(fft_frame)`.  When the gain
is `+inf` every bin of the (necessarily all-zero) spectrum becomes
`0 * inf = NaN`; the NaN-contaminated frame is represented by `none`. -/
noncomputable def scaledMags (g : Option ℝ) (spec : List ℂ) : Option (List ℝ) :=
  g.map fun gv => spec.map fun z => Complex.abs ((gv : ℂ) * z)

/-- `np.fft.rfftfreq(n, d)`: `[0, 1, ..., n/2] / (d*n)`.  Over `ℚ`,
exactly as numpy computes it for the rational arguments used here. -/
def rfftfreq (n : ℕ) (d : ℚ) : List ℚ :=
  (List.range (n / 2 + 1)).map fun i => (i : ℚ) / (d * n)

/-- `initData`: `self.freq_vect = np.fft.rfftfreq(chunksize, 1./rate)`. -/
def freq_vect (chunksize : ℕ) (rate : ℚ) : List ℚ :=
  rfftfreq chunksize (1 / rate)

/-- `initData`: `self.time_vect = np.arange(chunksize) / rate * 1000`. -/
def time_vect (chunksize : ℕ) (rate : ℚ) : List ℚ :=
  (List.range chunksize).map fun i => (i : ℚ) / rate * 1000

/-- The `LiveFFTWidget` state that `handleNewData` reads and writes:
the recorder, the auto-gain checkbox, the gain slider, the cutoff
slider's bin count, and the two displayed line series (`line_top` holds
the y-data of the time plot, `line_bottom` the y-data of the spectrum
plot; `none` marks a NaN-contaminated spectrum frame). -/
structure LiveFFTWidget where
  mic : MicrophoneRecorder
  autoGainCheckBox : Bool
  fixedGainSlider : DecibelSlider ℝ
  cutoffSlider : ℕ
  line_top : List ℝ
  line_bottom : Option (List ℝ)

/-- `handleNewData`: drain the recorder; if any frames arrived, keep only
the last, display it as the time series, compute `rfft`, zero the bins
below the cutoff, resolve the gain (auto: `1/max * ceiling`, also fed
back into the slider via `set_power_ratio`; manual: the slider's
`power_ratio()`), scale, and display the magnitudes. -/
noncomputable def handleNewData (w : LiveFFTWidget) : LiveFFTWidget :=
  let fm := w.mic.get_frames
  let w1 : LiveFFTWidget := { w with mic := fm.2 }
  match fm.1.getLast? with
  | none => w1
  | some current_frame =>
      let fft0 := rfft current_frame
      let fft1 := cutoffZero w.cutoffSlider fft0
      let gs : Option ℝ × DecibelSlider ℝ :=
        if w.autoGainCheckBox then
          let g := autoGainValue fft1
          (g, DecibelSlider.set_power_ratio_float w.fixedGainSlider g)
        else
          (some w.fixedGainSlider.power_ratio, w.fixedGainSlider)
      { w1 with
        line_top := current_frame
        fixedGainSlider := gs.2
        line_bottom := scaledMags gs.1 fft1 }

/-! ### Helper lemmas -/

theorem capture_append_foldl_frames (m : MicrophoneRecorder) (cs : List Chunk) :
    (cs.foldl MicrophoneRecorder.capture_append m).frames = m.frames ++ cs := by
  induction cs generalizing m with
  | nil => simp
  | cons c cs ih =>
      simp [List.foldl_cons, ih, MicrophoneRecorder.capture_append, List.append_assoc]

theorem rfft_length (x : List ℝ) : (rfft x).length = x.length / 2 + 1 := by
  rw [rfft, List.length_map, List.length_range]

theorem cutoffZero_getD (k : ℕ) (l : List ℂ) (i : ℕ) (hi : i < l.length) :
    (cutoffZero k l).getD i 0 = if i < k then 0 else l.getD i 0 := by
  simp [cutoffZero, List.mapIdx_eq_ofFn, List.getD_eq_getElem?_getD, List.getElem?_ofFn, hi,
    List.getElem?_eq_getElem]

section PyRound

variable {α : Type} [LinearOrderedField α] [FloorRing α]

theorem floor_le_pyRound (q : α) : ⌊q⌋ ≤ pyRound q := by
  unfold pyRound
  split_ifs <;> omega

theorem pyRound_le_floor_add_one (q : α) : pyRound q ≤ ⌊q⌋ + 1 := by
  unfold pyRound
  split_ifs <;> omega

theorem pyRound_abs_le (q : α) : |(pyRound q : α) - q| ≤ 1 / 2 := by
  have h0 : (⌊q⌋ : α) ≤ q := Int.floor_le q
  have h1 : q < (⌊q⌋ : α) + 1 := Int.lt_floor_add_one q
  unfold pyRound
  split_ifs with ha hb hc
  · exact abs_le.mpr ⟨by linarith, by linarith⟩
  · exact abs_le.mpr ⟨by push_cast; linarith, by push_cast; linarith⟩
  · have : q - (⌊q⌋ : α) = 1 / 2 := le_antisymm (not_lt.mp hb) (not_lt.mp ha)
    exact abs_le.mpr ⟨by linarith, by linarith⟩
  · have : q - (⌊q⌋ : α) = 1 / 2 := le_antisymm (not_lt.mp hb) (not_lt.mp ha)
    exact abs_le.mpr ⟨by push_cast; linarith, by push_cast; linarith⟩

theorem pyRound_mono {q1 q2 : α} (h : q1 ≤ q2) : pyRound q1 ≤ pyRound q2 := by
  rcases lt_or_eq_of_le (Int.floor_mono h) with hf | hf
  · have h1 := pyRound_le_floor_add_one q1
    have h2 := floor_le_pyRound q2
    omega
  · have hfr : q1 - (⌊q1⌋ : α) ≤ q2 - (⌊q1⌋ : α) := by linarith
    have hf2 : ⌊q2⌋ = ⌊q1⌋ := hf.symm
    unfold pyRound
    rw [hf2]
    split_ifs <;> first | omega | linarith

theorem pyRound_intCast (n : ℤ) : pyRound (n : α) = n := by
  unfold pyRound
  rw [Int.floor_intCast]
  simp

end PyRound

namespace DecibelSlider

variable {α : Type} [LinearOrderedField α] [FloorRing α]

theorem intMax_cast : ((INT_MAX : ℤ) : α) = 1000000 := by
  norm_num [INT_MAX]

theorem intMin_cast : ((INT_MIN : ℤ) : α) = 0 := by
  norm_num [INT_MIN]

/-- After any `set_decibel`, the stored linear position lies in
`[INT_MIN, INT_MAX]`. -/
theorem set_decibel_value_range (s : DecibelSlider α) (db : α) :
    0 ≤ (s.set_decibel db).value ∧ (s.set_decibel db).value ≤ 1000000 := by
  have hy0 : (0 : α) ≤ min ((INT_MAX : ℤ) : α) (max ((INT_MIN : ℤ) : α) (s.db_to_int db)) := by
    apply le_min
    · rw [intMax_cast]; norm_num
    · rw [intMin_cast]; exact le_max_left _ _
  have hy1 : min ((INT_MAX : ℤ) : α) (max ((INT_MIN : ℤ) : α) (s.db_to_int db)) ≤ 1000000 := by
    rw [← intMax_cast (α := α)]
    exact min_le_left _ _
  have hval : (s.set_decibel db).value =
      pyRound (min ((INT_MAX : ℤ) : α) (max ((INT_MIN : ℤ) : α) (s.db_to_int db))) := rfl
  rw [hval]
  set y := min ((INT_MAX : ℤ) : α) (max ((INT_MIN : ℤ) : α) (s.db_to_int db)) with hy
  constructor
  · have h1 := floor_le_pyRound y
    have h0 : (0 : ℤ) ≤ ⌊y⌋ := Int.le_floor.mpr (by exact_mod_cast hy0)
    omega
  · by_contra hc
    push_neg at hc
    have habs := abs_le.mp (pyRound_abs_le y)
    have hle : (1000001 : ℤ) ≤ pyRound y := by omega
    have hle2 : ((1000001 : ℤ) : α) ≤ (pyRound y : α) := Int.cast_le.mpr hle
    push_cast at hle2
    linarith [habs.2]

theorem db_to_int_mono (s : DecibelSlider α) (h : s.low_db < s.high_db)
    {a b : α} (hab : a ≤ b) : s.db_to_int a ≤ s.db_to_int b := by
  unfold db_to_int
  have hpos : (0 : α) < s.high_db - s.low_db := by linarith
  apply (div_le_div_right hpos).mpr
  apply mul_le_mul_of_nonneg_right (by linarith)
  rw [intMax_cast, intMin_cast]
  norm_num

theorem int_to_db_mono (s : DecibelSlider α) (h : s.low_db < s.high_db)
    {v w : ℤ} (hvw : v ≤ w) : s.int_to_db v ≤ s.int_to_db w := by
  unfold int_to_db
  have hpos : (0 : α) < s.high_db - s.low_db := by linarith
  have hc : (0 : α) < ((INT_MAX : ℤ) : α) - ((INT_MIN : ℤ) : α) := by
    rw [intMax_cast, intMin_cast]; norm_num
  have hnum : ((v : α) - ((INT_MIN : ℤ) : α)) * (s.high_db - s.low_db) ≤
      ((w : α) - ((INT_MIN : ℤ) : α)) * (s.high_db - s.low_db) := by
    apply mul_le_mul_of_nonneg_right _ hpos.le
    have : (v : α) ≤ (w : α) := Int.cast_le.mpr hvw
    linarith
  have := (div_le_div_right hc).mpr hnum
  linarith

end DecibelSlider

theorem listMax_map_mul (g : ℝ) (hg : 0 ≤ g) (l : List ℝ) :
    listMax (l.map fun x => g * x) = g * listMax l := by
  induction l with
  | nil => simp [listMax]
  | cons a l ih =>
      unfold listMax at *
      simp only [List.map_cons, List.foldr_cons]
      rw [ih, mul_max_of_nonneg _ _ hg]

theorem absMax_map_scale (g : ℝ) (hg : 0 ≤ g) (spec : List ℂ) :
    listMax (spec.map fun z => Complex.abs ((g : ℂ) * z)) = g * absMax spec := by
  have hfun : (spec.map fun z => Complex.abs ((g : ℂ) * z)) =
      (spec.map Complex.abs).map fun x => g * x := by
    rw [List.map_map]
    apply List.map_congr_left
    intro z _
    simp [map_mul, Complex.abs_ofReal, abs_of_nonneg hg]
  rw [hfun, listMax_map_mul g hg]
  rfl

theorem listMax_replicate_zero (m : ℕ) : listMax (List.replicate m (0 : ℝ)) = 0 := by
  induction m with
  | zero => rfl
  | succ m ih =>
      unfold listMax at *
      rw [List.replicate_succ, List.foldr_cons, ih]
      simp

theorem absMax_replicate_zero (m : ℕ) : absMax (List.replicate m 0) = 0 := by
  unfold absMax
  rw [List.map_replicate]
  simpa using listMax_replicate_zero m

theorem rfft_replicate_zero (n : ℕ) :
    rfft (List.replicate n (0 : ℝ)) = List.replicate (n / 2 + 1) 0 := by
  unfold rfft
  rw [List.length_replicate]
  apply List.eq_replicate.2
  refine ⟨by simp, ?_⟩
  intro b hb
  rcases List.mem_map.1 hb with ⟨k, _, hk⟩
  rw [← hk]
  apply Finset.sum_eq_zero
  intro j _
  have hz : (List.replicate n (0 : ℝ)).getD j 0 = 0 := by
    rcases lt_or_le j n with hj | hj
    · rw [List.getD_eq_getElem _ _ (by simpa using hj)]
      simp
    · rw [List.getD_eq_default _ _ (by simpa using hj)]
  rw [hz]
  simp

theorem cutoffZero_replicate_zero (k n : ℕ) :
    cutoffZero k (List.replicate n (0 : ℂ)) = List.replicate n 0 := by
  unfold cutoffZero
  apply List.ext_getElem
  · simp
  · intro i h1 h2
    rw [List.getElem_mapIdx]
    simp

/-- The reduced form of a tick in auto-gain mode on a nonempty drain. -/
theorem handleNewData_auto (w : LiveFFTWidget) (cs : List Chunk) (c : Chunk)
    (hag : w.autoGainCheckBox = true) (hframes : w.mic.frames = cs ++ [c]) :
    handleNewData w =
      { mic := { w.mic with frames := [] }
        autoGainCheckBox := w.autoGainCheckBox
        fixedGainSlider := DecibelSlider.set_power_ratio_float w.fixedGainSlider
          (autoGainValue (cutoffZero w.cutoffSlider (rfft c)))
        cutoffSlider := w.cutoffSlider
        line_top := c
        line_bottom := scaledMags (autoGainValue (cutoffZero w.cutoffSlider (rfft c)))
          (cutoffZero w.cutoffSlider (rfft c)) } := by
  unfold handleNewData
  simp [MicrophoneRecorder.get_frames, hframes, List.getLast?_concat, hag]

/-! ### Claims -/

/-- Claim C3 (code bug evaluation): `close` on a freshly constructed
recorder whose `start()` was never called follows the source's
unconditional `self.t.join()` and raises, rather than being a no-op. -/
theorem close_unstarted_is_error :
    (MicrophoneRecorder.init 48000 8192).close =
      Except.error "cannot join thread before it is started" := rfl

/-- Claim C4: draining after any sequence of appends to a fresh buffer
returns exactly the appended chunks in order, resets the internal list
to empty, and a second drain returns the empty sequence. -/
theorem get_frames_drain_exhaustive (rate chunksize : ℕ) (cs : List Chunk) :
    ((cs.foldl MicrophoneRecorder.capture_append
        (MicrophoneRecorder.init rate chunksize)).get_frames).1 = cs ∧
    ((cs.foldl MicrophoneRecorder.capture_append
        (MicrophoneRecorder.init rate chunksize)).get_frames).2.frames = [] ∧
    ((cs.foldl MicrophoneRecorder.capture_append
        (MicrophoneRecorder.init rate chunksize)).get_frames).2.get_frames.1 = [] := by
  refine ⟨?_, rfl, rfl⟩
  simp [MicrophoneRecorder.get_frames, capture_append_foldl_frames, MicrophoneRecorder.init]

/-- Claim C10: when auto-gain is disabled, a tick never writes the gain
slider: its whole state (bounds and linear position) is unchanged. -/
theorem tick_preserves_slider_when_manual (w : LiveFFTWidget)
    (h : w.autoGainCheckBox = false) :
    (handleNewData w).fixedGainSlider = w.fixedGainSlider := by
  unfold handleNewData
  cases hl : w.mic.get_frames.1.getLast? with
  | none => simp [hl]
  | some c => simp [hl, h]

/-- A concrete widget in manual-gain mode. -/
noncomputable def manualWidget : LiveFFTWidget :=
  { mic := MicrophoneRecorder.init 48000 8192
    autoGainCheckBox := false
    fixedGainSlider := { low_db := -24, high_db := 24, value := 0 }
    cutoffSlider := 1
    line_top := []
    line_bottom := some [] }

/-- Witness for claim C10 at a concrete manual-mode widget. -/
theorem tick_preserves_slider_when_manual_witness :
    (handleNewData manualWidget).fixedGainSlider = manualWidget.fixedGainSlider :=
  tick_preserves_slider_when_manual manualWidget rfl

/-- Claim C5: a tick with an empty drain leaves both displayed series
unchanged, and a tick with a nonempty drain produces exactly the state
that draining only the final chunk would produce: the earlier chunks of
the drain have no effect. -/
theorem tick_uses_only_last_chunk (w : LiveFFTWidget) :
    (w.mic.frames = [] →
      (handleNewData w).line_top = w.line_top ∧
      (handleNewData w).line_bottom = w.line_bottom) ∧
    (∀ (cs : List Chunk) (c : Chunk), w.mic.frames = cs ++ [c] →
      handleNewData w = handleNewData { w with mic := { w.mic with frames := [c] } }) := by
  constructor
  · intro h
    unfold handleNewData
    simp [MicrophoneRecorder.get_frames, h]
  · intro cs c h
    unfold handleNewData
    simp [MicrophoneRecorder.get_frames, h, List.getLast?_concat]

/-- A concrete widget whose buffer is empty. -/
noncomputable def emptyTickWidget : LiveFFTWidget :=
  { mic := MicrophoneRecorder.init 48000 8192
    autoGainCheckBox := true
    fixedGainSlider := { low_db := -24, high_db := 24, value := 0 }
    cutoffSlider := 1
    line_top := [5]
    line_bottom := some [7] }

/-- A concrete widget whose buffer holds two chunks. -/
noncomputable def busyTickWidget : LiveFFTWidget :=
  { emptyTickWidget with
    mic := { MicrophoneRecorder.init 48000 8192 with frames := [[1], [2]] } }

/-- Witness for claim C5: the empty drain leaves the display untouched,
and the two-chunk drain behaves exactly like draining only `[2]`. -/
theorem tick_uses_only_last_chunk_witness :
    ((handleNewData emptyTickWidget).line_top = emptyTickWidget.line_top ∧
      (handleNewData emptyTickWidget).line_bottom = emptyTickWidget.line_bottom) ∧
    handleNewData busyTickWidget =
      handleNewData { busyTickWidget with
        mic := { busyTickWidget.mic with frames := [[2]] } } :=
  ⟨(tick_uses_only_last_chunk emptyTickWidget).1 rfl,
   (tick_uses_only_last_chunk busyTickWidget).2 [[1]] [2] rfl⟩

/-- Claim C9: for chunk size 8 at 48000 Hz, the rfft output and the
frequency axis both have 8/2 + 1 = 5 entries, the frequency axis is
exactly `[0, 6000, 12000, 18000, 24000]`, and the time axis has 8
entries with entry `i` equal to `i / rate * 1000` milliseconds. -/
theorem axes_for_chunksize8 (c : List ℝ) (h : c.length = 8) :
    (rfft c).length = 5 ∧
    (freq_vect 8 48000).length = 5 ∧
    freq_vect 8 48000 = [0, 6000, 12000, 18000, 24000] ∧
    (time_vect 8 48000).length = 8 ∧
    (∀ i, i < 8 → (time_vect 8 48000).getD i 0 = (i : ℚ) / 48000 * 1000) := by
  refine ⟨by simp [rfft_length, h], by decide, ?_, by decide, ?_⟩
  · norm_num [freq_vect, rfftfreq, List.range_succ]
  · intro i hi
    interval_cases i <;> norm_num [time_vect, List.range_succ]

/-- Witness for claim C9 at the all-zero chunk of length 8. -/
theorem axes_for_chunksize8_witness :
    (rfft (List.replicate 8 0)).length = 5 ∧
    (freq_vect 8 48000).length = 5 ∧
    freq_vect 8 48000 = [0, 6000, 12000, 18000, 24000] ∧
    (time_vect 8 48000).length = 8 ∧
    (∀ i, i < 8 → (time_vect 8 48000).getD i 0 = (i : ℚ) / 48000 * 1000) :=
  axes_for_chunksize8 (List.replicate 8 0) (by simp)

/-- Claim C6: the cutoff step zeroes exactly the complex bins with index
below `k` and leaves every bin with index in `[k, N/2]` at its rfft
value. -/
theorem cutoff_zeroes_exactly_low_bins (c : List ℝ) (k i : ℕ)
    (hk : k ≤ c.length / 2) (hi : i ≤ c.length / 2) :
    (i < k → (cutoffZero k (rfft c)).getD i 0 = 0) ∧
    (k ≤ i → (cutoffZero k (rfft c)).getD i 0 = (rfft c).getD i 0) := by
  have hlen : i < (rfft c).length := by rw [rfft_length]; omega
  constructor
  · intro hik
    rw [cutoffZero_getD _ _ _ hlen, if_pos hik]
  · intro hki
    rw [cutoffZero_getD _ _ _ hlen, if_neg (by omega)]

/-- Witness for claim C6 on the chunk `[1, 0]` with cutoff 1: bin 0 is
zeroed, bin 1 = N/2 keeps its rfft value. -/
theorem cutoff_zeroes_exactly_low_bins_witness :
    (cutoffZero 1 (rfft [1, 0])).getD 0 0 = 0 ∧
    (cutoffZero 1 (rfft [1, 0])).getD 1 0 = (rfft [1, 0]).getD 1 0 :=
  ⟨(cutoff_zeroes_exactly_low_bins [1, 0] 1 0 (by simp) (by simp)).1 (by omega),
   (cutoff_zeroes_exactly_low_bins [1, 0] 1 1 (by simp) (by simp)).2 (by omega)⟩

/-- Claim C7: converting a decibel value inside the bounds to the linear
position (affine map, rounded to nearest) and back recovers it to within
one linear-position quantum `(high_db - low_db) / INT_MAX`. -/
theorem decibel_set_decibel_roundtrip (s : DecibelSlider ℚ) (db : ℚ)
    (h : s.low_db < s.high_db) (h1 : s.low_db ≤ db) (h2 : db ≤ s.high_db) :
    |(s.set_decibel db).decibel - db| ≤ (s.high_db - s.low_db) / 1000000 := by
  have hpos : (0 : ℚ) < s.high_db - s.low_db := by linarith
  have hne : s.high_db - s.low_db ≠ 0 := ne_of_gt hpos
  have hx0 : 0 ≤ s.db_to_int db := by
    unfold DecibelSlider.db_to_int
    rw [DecibelSlider.intMax_cast, DecibelSlider.intMin_cast]
    apply div_nonneg _ hpos.le
    apply mul_nonneg (by linarith) (by norm_num)
  have hx1 : s.db_to_int db ≤ 1000000 := by
    unfold DecibelSlider.db_to_int
    rw [DecibelSlider.intMax_cast, DecibelSlider.intMin_cast]
    rw [div_le_iff hpos]
    nlinarith
  have hclamp : min ((DecibelSlider.INT_MAX : ℤ) : ℚ)
      (max ((DecibelSlider.INT_MIN : ℤ) : ℚ) (s.db_to_int db)) = s.db_to_int db := by
    rw [DecibelSlider.intMax_cast, DecibelSlider.intMin_cast,
      max_eq_right hx0, min_eq_right hx1]
  have hgoal : (s.set_decibel db).decibel - db =
      ((pyRound (s.db_to_int db) : ℚ) - s.db_to_int db) * (s.high_db - s.low_db) / 1000000 := by
    simp only [DecibelSlider.set_decibel, DecibelSlider.decibel, DecibelSlider.int_to_db, hclamp]
    rw [DecibelSlider.intMax_cast, DecibelSlider.intMin_cast]
    unfold DecibelSlider.db_to_int
    rw [DecibelSlider.intMax_cast, DecibelSlider.intMin_cast]
    field_simp
    ring
  rw [hgoal, abs_div, abs_mul, abs_of_pos hpos, abs_of_pos (by norm_num : (0:ℚ) < 1000000)]
  have habs := pyRound_abs_le (s.db_to_int db)
  have hmul : |(pyRound (s.db_to_int db) : ℚ) - s.db_to_int db| * (s.high_db - s.low_db) ≤
      1 * (s.high_db - s.low_db) :=
    mul_le_mul_of_nonneg_right (habs.trans (by norm_num)) hpos.le
  apply (div_le_div_iff_of_pos_right (by norm_num : (0:ℚ) < 1000000)).mpr
  linarith

/-- A concrete slider over `ℚ` with the default bounds. -/
def witnessSliderQ : DecibelSlider ℚ :=
  { low_db := -60, high_db := 6, value := 0 }

/-- Witness for claim C7 at `db = 0` on the default-bounds slider. -/
theorem decibel_set_decibel_roundtrip_witness :
    |(witnessSliderQ.set_decibel 0).decibel - 0| ≤
      (witnessSliderQ.high_db - witnessSliderQ.low_db) / 1000000 :=
  decibel_set_decibel_roundtrip witnessSliderQ 0 (by norm_num [witnessSliderQ])
    (by norm_num [witnessSliderQ]) (by norm_num [witnessSliderQ])

/-- Claim C8: any `set_decibel` (hence any `set_power_ratio`) clamps the
linear position into `[0, INT_MAX]`, and for positive power ratios the
clamped mapping is monotone: a larger power ratio never yields a smaller
resulting decibel readout. -/
theorem set_clamps_and_monotone (s : DecibelSlider ℝ) (h : s.low_db < s.high_db) :
    (∀ db : ℝ, 0 ≤ (s.set_decibel db).value ∧ (s.set_decibel db).value ≤ 1000000) ∧
    (∀ pr1 pr2 : ℝ, 0 < pr1 → pr1 ≤ pr2 →
      (s.set_power_ratio pr1).decibel ≤ (s.set_power_ratio pr2).decibel) := by
  constructor
  · intro db
    exact DecibelSlider.set_decibel_value_range s db
  · intro pr1 pr2 hpr1 h12
    have hdb : 10 * Real.logb 10 pr1 ≤ 10 * Real.logb 10 pr2 := by
      have := Real.logb_le_logb_of_le (by norm_num : (1:ℝ) < 10) hpr1 h12
      linarith
    have hx := DecibelSlider.db_to_int_mono s h hdb
    have hclamp : min ((DecibelSlider.INT_MAX : ℤ) : ℝ)
        (max ((DecibelSlider.INT_MIN : ℤ) : ℝ) (s.db_to_int (10 * Real.logb 10 pr1))) ≤
        min ((DecibelSlider.INT_MAX : ℤ) : ℝ)
        (max ((DecibelSlider.INT_MIN : ℤ) : ℝ) (s.db_to_int (10 * Real.logb 10 pr2))) :=
      min_le_min (le_refl _) (max_le_max (le_refl _) hx)
    have hval := pyRound_mono hclamp
    exact DecibelSlider.int_to_db_mono s h hval

/-- A concrete slider over `ℝ` with the default bounds. -/
noncomputable def witnessSliderR : DecibelSlider ℝ :=
  { low_db := -60, high_db := 6, value := 0 }

/-- Witness for claim C8: an out-of-range decibel stays clamped, and the
power ratios 1 ≤ 2 give monotone decibel readouts. -/
theorem set_clamps_and_monotone_witness :
    (0 ≤ (witnessSliderR.set_decibel 100).value ∧
      (witnessSliderR.set_decibel 100).value ≤ 1000000) ∧
    (witnessSliderR.set_power_ratio 1).decibel ≤ (witnessSliderR.set_power_ratio 2).decibel :=
  ⟨(set_clamps_and_monotone witnessSliderR (by norm_num [witnessSliderR])).1 100,
   (set_clamps_and_monotone witnessSliderR (by norm_num [witnessSliderR])).2 1 2
     (by norm_num) (by norm_num)⟩

theorem cutoffZero_zero (l : List ℂ) : cutoffZero 0 l = l := by
  unfold cutoffZero
  apply List.ext_getElem
  · simp
  · intro i h1 h2
    rw [List.getElem_mapIdx]
    simp

theorem rfft_two : rfft [(2 : ℝ)] = [(2 : ℂ)] := by
  unfold rfft
  simp [Finset.sum_range_one]

theorem absMax_two : absMax [(2 : ℂ)] = 2 := by
  unfold absMax listMax
  rw [List.map_cons, List.map_nil, List.foldr_cons, List.foldr_nil, Complex.abs_two,
    max_eq_left (by norm_num)]

/-- Claim C1: in auto-gain mode, when the cutoff-filtered spectrum has a
strictly positive maximum magnitude `M`, the tick's gain is exactly
`ceiling / M` (ceiling = `sample_style[2]` = 1.0), the slider is updated
by feeding that very gain into `set_power_ratio`, and the displayed
magnitudes have maximum exactly equal to the ceiling. -/
theorem auto_gain_hits_ceiling (w : LiveFFTWidget) (cs : List Chunk) (c : Chunk)
    (hag : w.autoGainCheckBox = true) (hframes : w.mic.frames = cs ++ [c])
    (hM : 0 < absMax (cutoffZero w.cutoffSlider (rfft c))) :
    autoGainValue (cutoffZero w.cutoffSlider (rfft c)) =
      some (sampleStyleCeiling / absMax (cutoffZero w.cutoffSlider (rfft c))) ∧
    (handleNewData w).fixedGainSlider =
      DecibelSlider.set_power_ratio w.fixedGainSlider
        (sampleStyleCeiling / absMax (cutoffZero w.cutoffSlider (rfft c))) ∧
    ∃ mags, (handleNewData w).line_bottom = some mags ∧
      listMax mags = sampleStyleCeiling := by
  have hne : absMax (cutoffZero w.cutoffSlider (rfft c)) ≠ 0 := ne_of_gt hM
  have hgain : autoGainValue (cutoffZero w.cutoffSlider (rfft c)) =
      some (sampleStyleCeiling / absMax (cutoffZero w.cutoffSlider (rfft c))) := by
    unfold autoGainValue floatInv
    rw [if_neg hne]
    rw [Option.map_some']
    congr 1
    rw [sampleStyleCeiling]
    rw [inv_eq_one_div]
    ring
  have hred := handleNewData_auto w cs c hag hframes
  refine ⟨hgain, ?_, ?_⟩
  · have h2 := congrArg LiveFFTWidget.fixedGainSlider hred
    rw [h2]
    show DecibelSlider.set_power_ratio_float w.fixedGainSlider
      (autoGainValue (cutoffZero w.cutoffSlider (rfft c))) = _
    rw [hgain]
    rfl
  · have hg0 : (0 : ℝ) ≤ sampleStyleCeiling / absMax (cutoffZero w.cutoffSlider (rfft c)) :=
      div_nonneg (by norm_num [sampleStyleCeiling]) hM.le
    refine ⟨(cutoffZero w.cutoffSlider (rfft c)).map fun z =>
      Complex.abs (((sampleStyleCeiling / absMax (cutoffZero w.cutoffSlider (rfft c)) : ℝ) : ℂ) * z),
      ?_, ?_⟩
    · have h3 := congrArg LiveFFTWidget.line_bottom hred
      rw [h3]
      show scaledMags (autoGainValue (cutoffZero w.cutoffSlider (rfft c)))
        (cutoffZero w.cutoffSlider (rfft c)) = _
      rw [hgain]
      rfl
    · rw [absMax_map_scale _ hg0]
      rw [div_mul_cancel₀ _ hne]

/-- A concrete auto-gain widget whose buffer holds the one-sample chunk
`[2]` (its single rfft bin is `2`, so `M = 2 > 0`). -/
noncomputable def impulseWidget : LiveFFTWidget :=
  { mic := { MicrophoneRecorder.init 48000 8 with frames := [[2]], threadStarted := true }
    autoGainCheckBox := true
    fixedGainSlider := { low_db := -24, high_db := 24, value := 0 }
    cutoffSlider := 0
    line_top := []
    line_bottom := some [] }

/-- Witness for claim C1 on the concrete widget with chunk `[2]`. -/
theorem auto_gain_hits_ceiling_witness :
    autoGainValue (cutoffZero impulseWidget.cutoffSlider (rfft [2])) =
      some (sampleStyleCeiling / absMax (cutoffZero impulseWidget.cutoffSlider (rfft [2]))) ∧
    (handleNewData impulseWidget).fixedGainSlider =
      DecibelSlider.set_power_ratio impulseWidget.fixedGainSlider
        (sampleStyleCeiling / absMax (cutoffZero impulseWidget.cutoffSlider (rfft [2]))) ∧
    ∃ mags, (handleNewData impulseWidget).line_bottom = some mags ∧
      listMax mags = sampleStyleCeiling :=
  auto_gain_hits_ceiling impulseWidget [] [2] (by rfl) (by rfl) (by
    show (0 : ℝ) < absMax (cutoffZero 0 (rfft [2]))
    rw [rfft_two, cutoffZero_zero, absMax_two]
    norm_num)

/-- A concrete auto-gain widget whose buffer holds an all-zero chunk and
whose slider sits at a mid position. -/
noncomputable def silentWidget : LiveFFTWidget :=
  { mic := { MicrophoneRecorder.init 48000 8 with
      frames := [List.replicate 8 0], threadStarted := true }
    autoGainCheckBox := true
    fixedGainSlider := { low_db := -24, high_db := 24, value := 123456 }
    cutoffSlider := 1
    line_top := []
    line_bottom := some [] }

/-- Claim C2 (code bug evaluation): on an all-zero chunk with auto gain
enabled the source computes `gain = 1/0 = inf` with no guard, feeds the
non-finite gain into `set_power_ratio` (forcing the slider to `INT_MAX`
instead of retaining the previous position `123456`), and the displayed
spectrum frame is NaN-contaminated — the update is not skipped. -/
theorem silent_tick_overwrites_slider :
    silentWidget.fixedGainSlider.value = 123456 ∧
    (handleNewData silentWidget).fixedGainSlider.value = 1000000 ∧
    (handleNewData silentWidget).line_bottom = none := by
  have hred := handleNewData_auto silentWidget [] (List.replicate 8 0) (by rfl) (by rfl)
  have hspec : cutoffZero silentWidget.cutoffSlider (rfft (List.replicate 8 0)) =
      List.replicate 5 0 := by
    rw [rfft_replicate_zero]
    exact cutoffZero_replicate_zero _ _
  have hgain : autoGainValue
      (cutoffZero silentWidget.cutoffSlider (rfft (List.replicate 8 0))) = none := by
    rw [hspec]
    unfold autoGainValue floatInv
    rw [absMax_replicate_zero]
    simp
  refine ⟨by rfl, ?_, ?_⟩
  · have h2 := congrArg LiveFFTWidget.fixedGainSlider hred
    rw [h2]
    show (DecibelSlider.set_power_ratio_float silentWidget.fixedGainSlider
      (autoGainValue (cutoffZero silentWidget.cutoffSlider
        (rfft (List.replicate 8 0))))).value = 1000000
    rw [hgain]
    rfl
  · have h3 := congrArg LiveFFTWidget.line_bottom hred
    rw [h3]
    show scaledMags (autoGainValue (cutoffZero silentWidget.cutoffSlider
      (rfft (List.replicate 8 0))))
      (cutoffZero silentWidget.cutoffSlider (rfft (List.replicate 8 0))) = none
    rw [hgain]
    rfl

end Plot
